import Mathlib

set_option autoImplicit false

/-!
Shallow embedding of the temp-mail backend (src/index.js): mailbox and
message data model, the helper functions generateRandomLocalPart and
extractEmail, the mailbox-creation endpoint, the message-listing endpoint
and the inbound-email webhook handler, together with theorems checking the
specification's claims against these definitions.

Modelling conventions:
- Timestamps are Nat milliseconds (JS Date.getTime values).
- MongoDB ObjectId values are modelled as Nat; fresh ids are passed in
  explicitly by the caller.
- The datastore is explicit state: a Store record holding the list of
  mailbox documents and the list of message documents currently present.
  Mongo TTL deletion (the expireAfterSeconds index on expiresAt) is an
  external background process, so the mailbox list at any instant may or
  may not still contain documents whose expiresAt has passed.
- Math.random-driven choice is a function supplying, per position, an
  index below 36 (Math.floor of Math.random times chars.length).
- JS falsiness of the string-valued payload fields: a missing field and
  the empty string behave identically in the source (the || chains), so
  payload fields are plain strings with "" for absent.
- Each clock read in the source (new Date() in the handler, the schema
  default Date.now evaluated inside Model.create) is a separate input to
  the embedded function.
-/

/-- JS whitespace for String.prototype.trim: the WhiteSpace and
LineTerminator productions (ASCII whitespace, NBSP, BOM, the Unicode
space separators and the line separators). -/
def jsWhitespace (c : Char) : Bool :=
  c = ' ' || c = '\t' || c = '\n' || c = '\r' || c = '\x0b' || c = '\x0c' ||
  c = '\u00A0' || c = '\u1680' || (0x2000 ≤ c.toNat && c.toNat ≤ 0x200A) ||
  c = '\u2028' || c = '\u2029' || c = '\u202F' || c = '\u205F' || c = '\u3000' ||
  c = '\uFEFF'

/-- String.prototype.trim on a character list: drop whitespace from both
ends. -/
def trimChars (cs : List Char) : List Char :=
  ((cs.dropWhile jsWhitespace).reverse.dropWhile jsWhitespace).reverse

/-- JS line terminators: the characters that the regex dot does not
match (the regex in extractEmail has no s flag). -/
def isLineTerm (c : Char) : Bool :=
  c = '\n' || c = '\r' || c = '\u2028' || c = '\u2029'

/-- The lazy group of the regex: after a literal opening angle
bracket, the engine consumes at least one dot-matching character into the
capture, trying the closing angle bracket before each further extension.
Returns the capture of the leftmost-starting match from this position, or
none when no closing bracket completes a match here. -/
def lazyCaptureAux (acc : List Char) : List Char → Option (List Char)
  | [] => none
  | c :: rest =>
    if !acc.isEmpty && c = '>' then some acc.reverse
    else if isLineTerm c then none
    else lazyCaptureAux (c :: acc) rest

/-- str.match with the angle-bracket regex of extractEmail: try each start
position left to right; at an opening angle bracket, attempt the lazy
capture; on failure resume at the next position. Returns the first capture
group of the first match, as JS match()[1] does. -/
def regexCapture : List Char → Option (List Char)
  | [] => none
  | c :: rest =>
    if c = '<' then
      match lazyCaptureAux [] rest with
      | some cap => some cap
      | none => regexCapture rest
    else regexCapture rest

/-- extractEmail(value): empty (falsy) input gives "", otherwise trim,
then return the regex capture between angle brackets when the
Display Name angle-bracket form matches, else the trimmed string. -/
def extractEmail (value : String) : String :=
  if value = "" then ""
  else
    let str := trimChars value.data
    match regexCapture str with
    | some cap => String.mk cap
    | none => String.mk str

/-- The 36-character alphabet of generateRandomLocalPart. -/
def localChars : List Char :=
  "abcdefghijklmnopqrstuvwxyz0123456789".data

theorem localChars_length : localChars.length = 36 := rfl

/-- generateRandomLocalPart(length): one alphabet character per position,
selected by the random index stream (Math.floor(Math.random() * 36)). -/
def generateRandomLocalPart (rand : Nat → Fin 36) (length : Nat) : String :=
  String.mk ((List.range length).map fun i =>
    localChars.get (Fin.cast localChars_length.symm (rand i)))

/-- A Mailbox document (mailboxSchema). -/
structure Mailbox where
  id : Nat
  address : String
  userId : Option String
  createdAt : Nat
  expiresAt : Nat
  isActive : Bool
deriving DecidableEq

/-- A Message document (messageSchema). -/
structure Message where
  id : Nat
  mailboxId : Nat
  from_ : String
  «to» : String
  subject : String
  text : String
  html : String
  receivedAt : Nat
  isRead : Bool
deriving DecidableEq

/-- The datastore contents at some instant: the mailbox documents and the
message documents currently present. -/
structure Store where
  mailboxes : List Mailbox
  messages : List Message
deriving DecidableEq

/-- JS || on strings: the left operand when truthy (non-empty), else the
right operand. -/
def jsOr (a b : String) : String :=
  if a = "" then b else a

/-- An inbound webhook payload; each field the handler probes is a string,
with "" standing for an absent field (absent and empty are
indistinguishable through the || chains). -/
structure Payload where
  to_email : String := ""
  «to» : String := ""
  recipient : String := ""
  toAddress : String := ""
  from_email : String := ""
  from_ : String := ""
  sender : String := ""
  fromAddress : String := ""
  subject : String := ""
  title : String := ""
  mail_subject : String := ""
  text_body : String := ""
  text : String := ""
  body_text : String := ""
  body : String := ""
  html_body : String := ""
  html : String := ""
  body_html : String := ""
deriving DecidableEq

/-- The rawTo binding: first truthy among to_email, to, recipient,
toAddress, else "". -/
def rawTo (p : Payload) : String :=
  jsOr p.to_email (jsOr p.«to» (jsOr p.recipient (jsOr p.toAddress "")))

/-- The rawFrom binding: first truthy among from_email, from, sender,
fromAddress, else "". -/
def rawFrom (p : Payload) : String :=
  jsOr p.from_email (jsOr p.from_ (jsOr p.sender (jsOr p.fromAddress "")))

/-- The subject binding: first truthy among subject, title, mail_subject,
else "". -/
def subjectOf (p : Payload) : String :=
  jsOr p.subject (jsOr p.title (jsOr p.mail_subject ""))

/-- The text binding: first truthy among text_body, text, body_text, body,
else "". -/
def textOf (p : Payload) : String :=
  jsOr p.text_body (jsOr p.text (jsOr p.body_text (jsOr p.body "")))

/-- The html binding: first truthy among html_body, html, body_html,
else "". -/
def htmlOf (p : Payload) : String :=
  jsOr p.html_body (jsOr p.html (jsOr p.body_html ""))

/-- toEmail = extractEmail(rawTo). -/
def toEmailOf (p : Payload) : String := extractEmail (rawTo p)

/-- fromEmail = extractEmail(rawFrom). -/
def fromEmailOf (p : Payload) : String := extractEmail (rawFrom p)

/-- Mailbox.findOne with address equal and isActive true: the first
matching document. The query does not mention expiresAt. -/
def findOneActiveByAddress (store : Store) (addr : String) : Option Mailbox :=
  store.mailboxes.find? fun mb => mb.address = addr && mb.isActive

/-- The real-time payload emitted as the newMessage event: exactly id,
from, to, subject, text and receivedAt of the stored message. -/
structure NotificationPayload where
  id : Nat
  from_ : String
  «to» : String
  subject : String
  text : String
  receivedAt : Nat
deriving DecidableEq

/-- Builds the newMessage event payload from a stored message. -/
def notificationOf (m : Message) : NotificationPayload :=
  { id := m.id
    from_ := m.from_
    «to» := m.«to»
    subject := m.subject
    text := m.text
    receivedAt := m.receivedAt }

/-- Outcome of one inbound webhook invocation: the two ignored outcomes,
or success carrying the created message and the emitted notification. -/
inductive WebhookResult where
  | ignoredNoToEmail
  | ignoredNoMailbox
  | ok (message : Message) (note : NotificationPayload)
deriving DecidableEq

/-- The body status string of the JSON response for each outcome. -/
def statusOf : WebhookResult → String
  | WebhookResult.ignoredNoToEmail => "ignored_no_to_email"
  | WebhookResult.ignoredNoMailbox => "ignored_no_mailbox"
  | WebhookResult.ok _ _ => "ok"

/-- The HTTP status of the response for each outcome: res.status(200) on
all three paths (500 occurs only in the catch clause, on a datastore
failure, which the total embedding does not model). -/
def httpStatusOf : WebhookResult → Nat := fun _ => 200

/-- The document literal passed to Message.create by the webhook handler:
empty from defaults to the sentinel placeholder, subject, text and html
default to "", receivedAt comes from the Date.now schema default and the
id is the fresh ObjectId. -/
def createdMessage (p : Payload) (now newId : Nat) (mailbox : Mailbox) : Message :=
  { id := newId
    mailboxId := mailbox.id
    from_ := jsOr (fromEmailOf p) "unknown@unknown"
    «to» := toEmailOf p
    subject := jsOr (subjectOf p) ""
    text := jsOr (textOf p) ""
    html := jsOr (htmlOf p) ""
    receivedAt := now
    isRead := false }

/-- POST /webhooks/inbound-email: normalize the payload, stop with
ignored_no_to_email when the destination is empty, look up an active
mailbox and stop with ignored_no_mailbox when none matches, otherwise
insert one message and emit the newMessage payload. -/
def inboundWebhook (store : Store) (p : Payload) (now newId : Nat) :
    WebhookResult × Store :=
  if toEmailOf p = "" then (WebhookResult.ignoredNoToEmail, store)
  else
    match findOneActiveByAddress store (toEmailOf p) with
    | none => (WebhookResult.ignoredNoMailbox, store)
    | some mailbox =>
      let message : Message := createdMessage p now newId mailbox
      (WebhookResult.ok message (notificationOf message),
       { store with messages := store.messages ++ [message] })

/-- POST /api/mailbox: random 10-character local part, address
local@domain, expiresAt = tNow + ttlMinutes minutes where tNow is the
handler's new Date() read; createdAt comes from the schema default
Date.now evaluated inside Mailbox.create, a second clock read tCreate. -/
def createMailbox (domain : String) (ttlMinutes : Nat) (rand : Nat → Fin 36)
    (tNow tCreate newId : Nat) (store : Store) : Mailbox × Store :=
  let localPart := generateRandomLocalPart rand 10
  let address := localPart ++ "@" ++ domain
  let expiresAt := tNow + ttlMinutes * 60 * 1000
  let mailbox : Mailbox :=
    { id := newId
      address := address
      userId := none
      createdAt := tCreate
      expiresAt := expiresAt
      isActive := true }
  (mailbox, { store with mailboxes := store.mailboxes ++ [mailbox] })

/-- Descending receivedAt, the sort key of the listing query
(sort receivedAt minus one). -/
def recvDesc (a b : Message) : Prop := b.receivedAt ≤ a.receivedAt

instance : DecidableRel recvDesc := fun a b => Nat.decLe b.receivedAt a.receivedAt

instance : IsTotal Message recvDesc :=
  ⟨fun a b => Nat.le_total b.receivedAt a.receivedAt⟩

instance : IsTrans Message recvDesc :=
  ⟨fun _ _ _ h1 h2 => Nat.le_trans h2 h1⟩

/-- GET /api/mailbox/:id/messages: all messages whose mailboxId matches,
sorted by receivedAt descending. -/
def listByMailbox (store : Store) (mid : Nat) : List Message :=
  List.insertionSort recvDesc (store.messages.filter fun m => m.mailboxId = mid)

/-! Concrete fixtures used by counterexamples and witnesses. -/

/-- A fixed random stream (every index zero). -/
def constRand : Nat → Fin 36 := fun _ => 0

/-- A datastore with no documents. -/
def emptyStore : Store := { mailboxes := [], messages := [] }

/-- A payload with every probed field absent. -/
def emptyPayload : Payload := {}

/-- An active mailbox for a@b.com whose expiresAt (500) is already in the
past at the ingestion instant used in the C1 counterexample. -/
def c1Mailbox : Mailbox :=
  { id := 1
    address := "a@b.com"
    userId := none
    createdAt := 0
    expiresAt := 500
    isActive := true }

def c1Store : Store := { mailboxes := [c1Mailbox], messages := [] }

def c1Payload : Payload := { to_email := "a@b.com" }

/-- An active mailbox for a@b.com that is far from expiring. -/
def c3Mailbox : Mailbox :=
  { id := 1
    address := "a@b.com"
    userId := none
    createdAt := 0
    expiresAt := 3600000
    isActive := true }

def c3Store : Store := { mailboxes := [c3Mailbox], messages := [] }

def c3Payload : Payload := { to_email := "a@b.com", subject := "hi" }

/-- An older and a newer message for mailbox 1, stored oldest first. -/
def c7Msg1 : Message :=
  { id := 10
    mailboxId := 1
    from_ := "s@c.com"
    «to» := "a@b.com"
    subject := "first"
    text := ""
    html := ""
    receivedAt := 100
    isRead := false }

def c7Msg2 : Message :=
  { id := 11
    mailboxId := 1
    from_ := "s@c.com"
    «to» := "a@b.com"
    subject := "second"
    text := ""
    html := ""
    receivedAt := 200
    isRead := false }

def c7Store : Store := { mailboxes := [], messages := [c7Msg1, c7Msg2] }

/-! Lemmas about the regex model. -/

/-- A list without an opening angle bracket admits no match. -/
theorem regexCapture_eq_none (l : List Char) (h : '<' ∉ l) :
    regexCapture l = none := by
  induction l with
  | nil => rfl
  | cons c rest ih =>
    have hc : ¬(c = '<') := fun e => h (e ▸ List.mem_cons_self c rest)
    simp only [regexCapture, if_neg hc]
    exact ih fun hm => h (List.mem_cons_of_mem _ hm)

/-- After the opening bracket, a nonempty run of characters that are
neither closing brackets nor line terminators, followed by a closing
bracket, is exactly what the lazy group captures. -/
theorem lazyCaptureAux_closes (a : List Char) : ∀ (acc e : List Char),
    acc ≠ [] ∨ a ≠ [] →
    (∀ c ∈ a, ¬(c = '>') ∧ isLineTerm c = false) →
    lazyCaptureAux acc (a ++ '>' :: e) = some (acc.reverse ++ a) := by
  induction a with
  | nil =>
    intro acc e hne _
    have hacc : acc ≠ [] := by
      rcases hne with h | h
      · exact h
      · exact absurd rfl h
    obtain ⟨x, xs, rfl⟩ := List.exists_cons_of_ne_nil hacc
    simp [lazyCaptureAux]
  | cons c a ih =>
    intro acc e _ hall
    have hc := hall c (List.mem_cons_self c a)
    have h2 := ih (c :: acc) e (Or.inl (by simp))
      fun x hx => hall x (List.mem_cons_of_mem _ hx)
    have hstep : lazyCaptureAux acc (c :: (a ++ '>' :: e))
        = lazyCaptureAux (c :: acc) (a ++ '>' :: e) := by
      rw [lazyCaptureAux, if_neg (by simp [hc.1]), if_neg (by simp [hc.2])]
    calc lazyCaptureAux acc ((c :: a) ++ '>' :: e)
        = lazyCaptureAux (c :: acc) (a ++ '>' :: e) := hstep
      _ = some ((c :: acc).reverse ++ a) := h2
      _ = some (acc.reverse ++ c :: a) := by simp

/-- The leftmost match: scanning a bracket-free prefix, then an opening
bracket whose lazy group closes, yields that capture. -/
theorem regexCapture_finds (d : List Char) (rest cap : List Char)
    (hd : '<' ∉ d) (h : lazyCaptureAux [] rest = some cap) :
    regexCapture (d ++ '<' :: rest) = some cap := by
  induction d with
  | nil => simp [regexCapture, h]
  | cons c d ih =>
    have hc : ¬(c = '<') := fun e => hd (e ▸ List.mem_cons_self c d)
    simp only [List.cons_append, regexCapture, if_neg hc]
    exact ih fun hm => hd (List.mem_cons_of_mem _ hm)

/-! Branch lemmas for the webhook handler. -/

/-- Empty normalized destination: the handler returns ignored_no_to_email
and leaves the store untouched. -/
theorem inboundWebhook_noToEmail (store : Store) (p : Payload) (now newId : Nat)
    (h : toEmailOf p = "") :
    inboundWebhook store p now newId = (WebhookResult.ignoredNoToEmail, store) := by
  unfold inboundWebhook
  rw [if_pos h]

/-- Lookup miss: the handler returns ignored_no_mailbox and leaves the
store untouched. -/
theorem inboundWebhook_noMailbox (store : Store) (p : Payload) (now newId : Nat)
    (h0 : toEmailOf p ≠ "")
    (h : findOneActiveByAddress store (toEmailOf p) = none) :
    inboundWebhook store p now newId = (WebhookResult.ignoredNoMailbox, store) := by
  unfold inboundWebhook
  rw [if_neg h0, h]

/-- Lookup hit: the handler appends exactly the created message and
returns it with its notification payload. -/
theorem inboundWebhook_found (store : Store) (p : Payload) (now newId : Nat)
    (mb : Mailbox)
    (h0 : toEmailOf p ≠ "")
    (h : findOneActiveByAddress store (toEmailOf p) = some mb) :
    inboundWebhook store p now newId =
      (WebhookResult.ok (createdMessage p now newId mb)
        (notificationOf (createdMessage p now newId mb)),
       { store with
          messages := store.messages ++ [createdMessage p now newId mb] }) := by
  unfold inboundWebhook
  rw [if_neg h0, h]

/-! Claim theorems. -/

/-- C4: normalization of a raw address value. When the trimmed value has
the Display Name angle-bracket form (a bracket-free prefix, then an
opening bracket, a nonempty capture without closing brackets or line
terminators, a closing bracket, and a suffix), extractEmail returns
exactly the capture; when the trimmed value has no opening bracket at
all, extractEmail returns the trimmed value unchanged. -/
theorem claim_extractEmail_normalization :
    (∀ (value : String) (d a e : List Char),
        value ≠ "" →
        trimChars value.data = d ++ '<' :: (a ++ '>' :: e) →
        '<' ∉ d → a ≠ [] →
        (∀ c ∈ a, ¬(c = '>') ∧ isLineTerm c = false) →
        extractEmail value = String.mk a) ∧
    (∀ value : String, '<' ∉ trimChars value.data →
        extractEmail value = String.mk (trimChars value.data)) := by
  constructor
  · intro value d a e hv htrim hd ha hall
    have hlazy := lazyCaptureAux_closes a [] e (Or.inr ha) hall
    have hcap := regexCapture_finds d (a ++ '>' :: e) a hd (by simpa using hlazy)
    simp only [extractEmail, if_neg hv]
    rw [htrim, hcap]
  · intro value h
    by_cases hv : value = ""
    · subst hv
      rfl
    · simp only [extractEmail, if_neg hv]
      rw [regexCapture_eq_none _ h]

/-- Witness for C4: the display-name form resolves to the bracketed
address, and a bare address with surrounding spaces is returned
trimmed. -/
theorem claim_extractEmail_normalization_witness :
    extractEmail "Name <a@b.com>" = String.mk "a@b.com".data ∧
    extractEmail " x@y.z " = String.mk (trimChars " x@y.z ".data) :=
  ⟨claim_extractEmail_normalization.1 "Name <a@b.com>" "Name ".data
      "a@b.com".data [] (by decide) (by decide) (by decide) (by decide)
      (by decide),
   claim_extractEmail_normalization.2 " x@y.z " (by decide)⟩

/-- C8: a generated local part has exactly the requested number of
characters (the configured generator length, 10 at the call site) and
every character is a lowercase letter or a digit. -/
theorem claim_localPart_charset_length (rand : Nat → Fin 36) (length : Nat) :
    (generateRandomLocalPart rand length).length = length ∧
    ∀ c ∈ (generateRandomLocalPart rand length).data,
      ('a' ≤ c ∧ c ≤ 'z') ∨ ('0' ≤ c ∧ c ≤ '9') := by
  constructor
  · simp [generateRandomLocalPart, String.length]
  · intro c hc
    have hmem : c ∈ (List.range length).map fun i =>
        localChars.get (Fin.cast localChars_length.symm (rand i)) := hc
    obtain ⟨i, _, rfl⟩ := List.mem_map.mp hmem
    have hall : ∀ x ∈ localChars, ('a' ≤ x ∧ x ≤ 'z') ∨ ('0' ≤ x ∧ x ≤ '9') := by
      decide
    exact hall _ (localChars.get_mem _ _)

/-- Witness for C8: the all-zero random stream yields a ten-character
local part. -/
theorem claim_localPart_charset_length_witness :
    (generateRandomLocalPart constRand 10).length = 10 :=
  (claim_localPart_charset_length constRand 10).1

/-- C5: when the normalized destination address is empty, the webhook
handler stops without touching the store, creates zero messages, and
acknowledges with HTTP 200 and body status ignored_no_to_email. -/
theorem claim_ignored_no_to_email (store : Store) (p : Payload)
    (now newId : Nat) (h : toEmailOf p = "") :
    (inboundWebhook store p now newId).1 = WebhookResult.ignoredNoToEmail ∧
    (inboundWebhook store p now newId).2 = store ∧
    statusOf (inboundWebhook store p now newId).1 = "ignored_no_to_email" ∧
    httpStatusOf (inboundWebhook store p now newId).1 = 200 := by
  rw [inboundWebhook_noToEmail store p now newId h]
  exact ⟨rfl, rfl, rfl, rfl⟩

/-- Witness for C5: the empty payload has an empty normalized
destination. -/
theorem claim_ignored_no_to_email_witness :
    (inboundWebhook emptyStore emptyPayload 0 0).1
        = WebhookResult.ignoredNoToEmail ∧
    (inboundWebhook emptyStore emptyPayload 0 0).2 = emptyStore ∧
    statusOf (inboundWebhook emptyStore emptyPayload 0 0).1
        = "ignored_no_to_email" ∧
    httpStatusOf (inboundWebhook emptyStore emptyPayload 0 0).1 = 200 :=
  claim_ignored_no_to_email emptyStore emptyPayload 0 0 (by decide)

/-- C6: when the normalized destination matches no active mailbox, the
webhook handler stops after the lookup without touching the store,
creates zero messages, and acknowledges with HTTP 200 and body status
ignored_no_mailbox. -/
theorem claim_ignored_no_mailbox (store : Store) (p : Payload)
    (now newId : Nat) (h0 : toEmailOf p ≠ "")
    (h : findOneActiveByAddress store (toEmailOf p) = none) :
    (inboundWebhook store p now newId).1 = WebhookResult.ignoredNoMailbox ∧
    (inboundWebhook store p now newId).2 = store ∧
    statusOf (inboundWebhook store p now newId).1 = "ignored_no_mailbox" ∧
    httpStatusOf (inboundWebhook store p now newId).1 = 200 := by
  rw [inboundWebhook_noMailbox store p now newId h0 h]
  exact ⟨rfl, rfl, rfl, rfl⟩

/-- Witness for C6: address a@b.com against an empty store. -/
theorem claim_ignored_no_mailbox_witness :
    (inboundWebhook emptyStore c1Payload 0 0).1
        = WebhookResult.ignoredNoMailbox ∧
    (inboundWebhook emptyStore c1Payload 0 0).2 = emptyStore ∧
    statusOf (inboundWebhook emptyStore c1Payload 0 0).1
        = "ignored_no_mailbox" ∧
    httpStatusOf (inboundWebhook emptyStore c1Payload 0 0).1 = 200 :=
  claim_ignored_no_mailbox emptyStore c1Payload 0 0 (by decide) (by decide)

/-- C7: the message listing for a mailbox id is sorted by receivedAt in
non-increasing order, is a permutation of exactly the stored messages
with that mailboxId, and is empty (not an error) when no such message
exists. -/
theorem claim_listByMailbox_sorted (store : Store) (mid : Nat) :
    List.Sorted recvDesc (listByMailbox store mid) ∧
    List.Perm (listByMailbox store mid)
      (store.messages.filter fun m => m.mailboxId = mid) ∧
    ((store.messages.filter fun m => m.mailboxId = mid) = [] →
      listByMailbox store mid = []) := by
  refine ⟨List.sorted_insertionSort recvDesc _,
    List.perm_insertionSort recvDesc _, ?_⟩
  intro h
  simp [listByMailbox, h]

/-- Witness for C7: a two-message store, listed for mailbox 1. -/
theorem claim_listByMailbox_sorted_witness :
    List.Sorted recvDesc (listByMailbox c7Store 1) ∧
    List.Perm (listByMailbox c7Store 1)
      (c7Store.messages.filter fun m => m.mailboxId = 1) ∧
    ((c7Store.messages.filter fun m => m.mailboxId = 1) = [] →
      listByMailbox c7Store 1 = []) :=
  claim_listByMailbox_sorted c7Store 1

/-- C1 counterexample: at ingestion instant 1000 the only stored mailbox
is active but already expired (expiresAt 500), and the webhook still
inserts a message referencing it: the lookup enforces isActive but not
unexpiredness, which is left to the datastore's background TTL
deletion. -/
theorem claim_ingest_active_unexpired_cex :
    c1Mailbox.isActive = true ∧
    c1Mailbox.expiresAt ≤ 1000 ∧
    c1Store.mailboxes = [c1Mailbox] ∧
    (inboundWebhook c1Store c1Payload 1000 2).2.messages.map Message.mailboxId
      = [c1Mailbox.id] ∧
    statusOf (inboundWebhook c1Store c1Payload 1000 2).1 = "ok" := by
  decide

/-- C1 amended: every message the webhook creates references a mailbox
that was present in the store and active (isActive true) at the lookup,
with the matching address; the handler itself performs no expiresAt
check. -/
theorem claim_ingest_mailbox_active_at_lookup (store : Store) (p : Payload)
    (now newId : Nat) (msg : Message) (note : NotificationPayload)
    (h : (inboundWebhook store p now newId).1 = WebhookResult.ok msg note) :
    ∃ mb, mb ∈ store.mailboxes ∧ mb.isActive = true ∧
      msg.mailboxId = mb.id ∧ mb.address = msg.«to» := by
  by_cases h0 : toEmailOf p = ""
  · rw [inboundWebhook_noToEmail store p now newId h0] at h
    exact absurd h (by simp)
  · cases hf : findOneActiveByAddress store (toEmailOf p) with
    | none =>
      rw [inboundWebhook_noMailbox store p now newId h0 hf] at h
      exact absurd h (by simp)
    | some mb =>
      rw [inboundWebhook_found store p now newId mb h0 hf] at h
      simp only [WebhookResult.ok.injEq] at h
      obtain ⟨hmsg, -⟩ := h
      have hfind : store.mailboxes.find?
          (fun x => x.address = toEmailOf p && x.isActive) = some mb := hf
      have hmem := List.mem_of_find?_eq_some hfind
      have hpred := List.find?_some hfind
      rw [Bool.and_eq_true, decide_eq_true_eq] at hpred
      refine ⟨mb, hmem, hpred.2, ?_, ?_⟩
      · rw [← hmsg]
        rfl
      · rw [← hmsg]
        exact hpred.1

/-- Witness for C1 amended: a successful concrete ingestion. -/
theorem claim_ingest_mailbox_active_at_lookup_witness :
    ∃ mb, mb ∈ c3Store.mailboxes ∧ mb.isActive = true ∧
      (createdMessage c3Payload 7 9 c3Mailbox).mailboxId = mb.id ∧
      mb.address = (createdMessage c3Payload 7 9 c3Mailbox).«to» :=
  claim_ingest_mailbox_active_at_lookup c3Store c3Payload 7 9
    (createdMessage c3Payload 7 9 c3Mailbox)
    (notificationOf (createdMessage c3Payload 7 9 c3Mailbox)) (by decide)

/-- C2 counterexample: with the handler clock read at 0 and the schema
default Date.now read at 1 during Mailbox.create, the stored record has
expiresAt minus createdAt one millisecond short of the 60-minute TTL. -/
theorem claim_ttl_exact_cex :
    (createMailbox "example.com" 60 constRand 0 1 7 emptyStore).1.expiresAt -
      (createMailbox "example.com" 60 constRand 0 1 7 emptyStore).1.createdAt
      ≠ 60 * 60 * 1000 := by
  decide

/-- C2 amended: expiresAt always equals the handler's new Date() read
plus the configured TTL in milliseconds, and createdAt is the Date.now
default read taken inside Mailbox.create; expiresAt minus createdAt
equals the TTL exactly whenever those two clock reads coincide. -/
theorem claim_ttl_from_handler_clock (domain : String) (ttlMinutes : Nat)
    (rand : Nat → Fin 36) (tNow tCreate newId : Nat) (store : Store) :
    (createMailbox domain ttlMinutes rand tNow tCreate newId store).1.expiresAt
        = tNow + ttlMinutes * 60 * 1000 ∧
    (createMailbox domain ttlMinutes rand tNow tCreate newId store).1.createdAt
        = tCreate ∧
    (tCreate = tNow →
      (createMailbox domain ttlMinutes rand tNow tCreate newId store).1.expiresAt
          - (createMailbox domain ttlMinutes rand tNow tCreate newId
              store).1.createdAt
        = ttlMinutes * 60 * 1000) := by
  refine ⟨rfl, rfl, ?_⟩
  intro h
  simp [createMailbox, h]

/-- Witness for C2 amended: coinciding clock reads give the exact TTL. -/
theorem claim_ttl_from_handler_clock_witness :
    (createMailbox "example.com" 60 constRand 5 5 7 emptyStore).1.expiresAt -
      (createMailbox "example.com" 60 constRand 5 5 7 emptyStore).1.createdAt
      = 60 * 60 * 1000 :=
  (claim_ttl_from_handler_clock "example.com" 60 constRand 5 5 7 emptyStore).2.2
    rfl

/-- C3: for a store whose active-mailbox lookup for a@b.com succeeds,
ingesting the payload with to_email a@b.com and subject hi appends
exactly one message, whose destination is a@b.com, whose subject is hi
and whose text is empty, and answers ok. -/
theorem claim_ingest_creates_one_message (store : Store) (mb : Mailbox)
    (now newId : Nat)
    (h : findOneActiveByAddress store "a@b.com" = some mb) :
    ∃ m : Message,
      (inboundWebhook store c3Payload now newId).2.messages
          = store.messages ++ [m] ∧
      (inboundWebhook store c3Payload now newId).2.mailboxes
          = store.mailboxes ∧
      (inboundWebhook store c3Payload now newId).1
          = WebhookResult.ok m (notificationOf m) ∧
      m.«to» = "a@b.com" ∧ m.subject = "hi" ∧ m.text = "" := by
  have hto : toEmailOf c3Payload = "a@b.com" := by decide
  have hfound := inboundWebhook_found store c3Payload now newId mb
    (by rw [hto]; decide) (by rw [hto]; exact h)
  refine ⟨createdMessage c3Payload now newId mb, ?_, ?_, ?_, ?_, ?_, ?_⟩
  · rw [hfound]
  · rw [hfound]
  · rw [hfound]
  · show toEmailOf c3Payload = "a@b.com"
    exact hto
  · rfl
  · rfl

/-- Witness for C3: the concrete single-mailbox store. -/
theorem claim_ingest_creates_one_message_witness :
    ∃ m : Message,
      (inboundWebhook c3Store c3Payload 7 9).2.messages
          = c3Store.messages ++ [m] ∧
      (inboundWebhook c3Store c3Payload 7 9).2.mailboxes
          = c3Store.mailboxes ∧
      (inboundWebhook c3Store c3Payload 7 9).1
          = WebhookResult.ok m (notificationOf m) ∧
      m.«to» = "a@b.com" ∧ m.subject = "hi" ∧ m.text = "" :=
  claim_ingest_creates_one_message c3Store c3Mailbox 7 9 (by decide)

/-- C9: on every successful ingestion the emitted newMessage payload is
built from exactly the stored message's id, from, to, subject, text and
receivedAt, and it does not depend on the html field: changing html
leaves the payload unchanged. -/
theorem claim_notification_fields (store : Store) (p : Payload)
    (now newId : Nat) (msg : Message) (note : NotificationPayload)
    (h : (inboundWebhook store p now newId).1 = WebhookResult.ok msg note) :
    note = notificationOf msg ∧
    note.id = msg.id ∧ note.from_ = msg.from_ ∧ note.«to» = msg.«to» ∧
    note.subject = msg.subject ∧ note.text = msg.text ∧
    note.receivedAt = msg.receivedAt ∧
    (∀ s : String, notificationOf { msg with html := s }
        = notificationOf msg) := by
  have hnote : note = notificationOf msg := by
    by_cases h0 : toEmailOf p = ""
    · rw [inboundWebhook_noToEmail store p now newId h0] at h
      exact absurd h (by simp)
    · cases hf : findOneActiveByAddress store (toEmailOf p) with
      | none =>
        rw [inboundWebhook_noMailbox store p now newId h0 hf] at h
        exact absurd h (by simp)
      | some mb =>
        rw [inboundWebhook_found store p now newId mb h0 hf] at h
        simp only [WebhookResult.ok.injEq] at h
        rw [← h.2, ← h.1]
  subst hnote
  exact ⟨rfl, rfl, rfl, rfl, rfl, rfl, rfl, fun s => rfl⟩

/-- Witness for C9: the concrete successful ingestion. -/
theorem claim_notification_fields_witness :
    notificationOf (createdMessage c3Payload 7 9 c3Mailbox)
        = notificationOf (createdMessage c3Payload 7 9 c3Mailbox) ∧
    (notificationOf (createdMessage c3Payload 7 9 c3Mailbox)).id
        = (createdMessage c3Payload 7 9 c3Mailbox).id ∧
    (notificationOf (createdMessage c3Payload 7 9 c3Mailbox)).from_
        = (createdMessage c3Payload 7 9 c3Mailbox).from_ ∧
    (notificationOf (createdMessage c3Payload 7 9 c3Mailbox)).«to»
        = (createdMessage c3Payload 7 9 c3Mailbox).«to» ∧
    (notificationOf (createdMessage c3Payload 7 9 c3Mailbox)).subject
        = (createdMessage c3Payload 7 9 c3Mailbox).subject ∧
    (notificationOf (createdMessage c3Payload 7 9 c3Mailbox)).text
        = (createdMessage c3Payload 7 9 c3Mailbox).text ∧
    (notificationOf (createdMessage c3Payload 7 9 c3Mailbox)).receivedAt
        = (createdMessage c3Payload 7 9 c3Mailbox).receivedAt ∧
    (∀ s : String,
      notificationOf { createdMessage c3Payload 7 9 c3Mailbox with html := s }
        = notificationOf (createdMessage c3Payload 7 9 c3Mailbox)) :=
  claim_notification_fields c3Store c3Payload 7 9
    (createdMessage c3Payload 7 9 c3Mailbox)
    (notificationOf (createdMessage c3Payload 7 9 c3Mailbox)) (by decide)

/-- C10: one webhook invocation never changes the mailbox collection and
either leaves the message collection unchanged (the ignored outcomes) or
appends exactly one message; it never updates or deletes an existing
document. -/
theorem claim_webhook_frame (store : Store) (p : Payload) (now newId : Nat) :
    (inboundWebhook store p now newId).2.mailboxes = store.mailboxes ∧
    ((inboundWebhook store p now newId).2.messages = store.messages ∨
      ∃ m : Message, (inboundWebhook store p now newId).2.messages
          = store.messages ++ [m]) := by
  by_cases h0 : toEmailOf p = ""
  · rw [inboundWebhook_noToEmail store p now newId h0]
    exact ⟨rfl, Or.inl rfl⟩
  · cases hf : findOneActiveByAddress store (toEmailOf p) with
    | none =>
      rw [inboundWebhook_noMailbox store p now newId h0 hf]
      exact ⟨rfl, Or.inl rfl⟩
    | some mb =>
      rw [inboundWebhook_found store p now newId mb h0 hf]
      exact ⟨rfl, Or.inr ⟨createdMessage p now newId mb, rfl⟩⟩
